import Mathlib

/-!
Verification of the signal-conditioning and event-extraction pipeline of the
High-Speed Tensile Tester repository (src/main.py).

The Python functions are shallowly embedded over exact rational arithmetic:
numpy float operations become the corresponding exact operations on ℚ.  Where
the Python code can raise an exception, the embedding returns an
Except-of-PyErr value; where numpy silently produces inf or NaN (float
division by zero, mean of an empty slice) the embedding uses the total-field
convention q / 0 = 0 of ℚ — what is modelled faithfully in those places is the
control flow (no exception is raised), and no theorem below depends on the
particular junk value produced there.  Square roots do not exist in ℚ, so the
uncertainty computation is embedded as the exact square of the value the code
computes, together with a real-valued wrapper taking Real.sqrt of it.
-/

namespace TensileTester

/-- The Python exceptions that the embedded fragment can raise.
`valueError` stands for ValueError, `unboundLocal` for UnboundLocalError
(reading a name that no branch assigned), `indexError` for IndexError
(out-of-range sequence indexing, including numpy fancy-index on an empty
match as in process_data line 313). -/
inductive PyErr where
  | valueError
  | unboundLocal
  | indexError
deriving DecidableEq, Repr

/-- np.min of a nonempty array; 0 on the empty list (numpy would raise,
callers below only reach this with nonempty data or behind guards noted in
their doc comments). -/
def listMin : List ℚ → ℚ
  | [] => 0
  | a :: l => l.foldl min a

/-- np.max of a nonempty array; 0 on the empty list (same caveat as listMin). -/
def listMax : List ℚ → ℚ
  | [] => 0
  | a :: l => l.foldl max a

/-- np.mean: sum divided by length.  np.mean of an empty array is NaN in
numpy (with a warning, no exception); here the ℚ convention gives 0/0 = 0. -/
def mean (l : List ℚ) : ℚ := l.sum / (l.length : ℚ)

/-- np.var with ddof=1 (Bessel-corrected sample variance), as used at
main.py line 223. -/
def sampleVar (l : List ℚ) : ℚ :=
  (l.map (fun v => (v - mean l) ^ 2)).sum / ((l.length : ℚ) - 1)

/-- np.argmax: index of the first occurrence of the maximum (main.py
line 314); 0 on the empty list (numpy would raise there). -/
def argmax (l : List ℚ) : ℕ :=
  ((List.range l.length).find? (fun i => decide (l.getD i 0 = listMax l))).getD 0

/-!
## Calibration fit (main.py lines 195-198)

numpy.polynomial.Polynomial.fit maps the data onto the window [-1, 1]:
the stored coefficients coef are the least-squares line coefficients with
respect to the scaled variable s(v) = (2v - min - max)/(max - min) on the
domain [min(x), max(x)], and evaluation f(v) first applies s.  The exact
rational least-squares solution below is what numpy's lstsq computes in
floating point for the full-rank degree-1 case.
-/

/-- A degree-1 numpy polynomial as returned by Polynomial.fit: window
coefficients plus the data domain implied by the fit. -/
structure PolyFit where
  coef0 : ℚ
  coef1 : ℚ
  dmin : ℚ
  dmax : ℚ
deriving DecidableEq, Repr

/-- numpy mapdomain from [dmin, dmax] onto the window [-1, 1].  For a
degenerate domain dmin = dmax numpy produces inf/NaN; the ℚ convention
gives 0 (no exception either way). -/
def mapToWindow (dmin dmax v : ℚ) : ℚ := (2 * v - dmin - dmax) / (dmax - dmin)

/-- Polynomial.fit(x, y, deg=1): scale x onto the window, then solve the
degree-1 least-squares problem there.  For rank-deficient data (all scaled x
equal) numpy warns and returns a minimum-norm solution; the ℚ convention
gives slope 0/0 = 0 (no exception either way). -/
def polyfit (xs ys : List ℚ) : PolyFit :=
  let dmin := listMin xs
  let dmax := listMax xs
  let xw := xs.map (mapToWindow dmin dmax)
  let n : ℚ := (xs.length : ℚ)
  let xbar := xw.sum / n
  let ybar := ys.sum / n
  let sxx := (xw.map (fun v => (v - xbar) ^ 2)).sum
  let sxy := (List.zipWith (fun a b => (a - xbar) * (b - ybar)) xw ys).sum
  let c1 := sxy / sxx
  ⟨ybar - c1 * xbar, c1, dmin, dmax⟩

/-- Evaluation f(v) of a fitted numpy polynomial (main.py lines 218, 263,
266): map v into the window, then evaluate with the window coefficients. -/
def polyEval (f : PolyFit) (v : ℚ) : ℚ :=
  f.coef0 + f.coef1 * mapToWindow f.dmin f.dmax v

/-- The inverse lookup of main.py line 216:
x_measured = (y_value - f.coef[0]) / f.coef[1].  Note the window
coefficients are used, so this recovers the window coordinate, not the
data-domain voltage.  Division by a zero slope is numpy float division
(inf/NaN with a warning, no exception); the ℚ convention gives 0. -/
def invert (f : PolyFit) (y_value : ℚ) : ℚ := (y_value - f.coef0) / f.coef1

/-- One sensor's calibration table from config_data: reference physical
values (masses in kg, or distances in m) paired with measured voltages. -/
structure SensorCfg where
  refs : List ℚ
  volts : List ℚ
deriving DecidableEq, Repr

/-- The slice of config_data that the analysis core reads. -/
structure Config where
  load_cell : SensorCfg
  ultrasonic : SensorCfg
deriving DecidableEq, Repr

/-- calc_lines_of_best_fit (main.py lines 195-198): load-cell masses are
multiplied by 9.8 (= 49/5) to convert kg to N before fitting. -/
def calc_lines_of_best_fit (cfg : Config) : PolyFit × PolyFit :=
  (polyfit cfg.load_cell.volts (cfg.load_cell.refs.map (fun m => m * (49/5))),
   polyfit cfg.ultrasonic.volts cfg.ultrasonic.refs)

/-- The calibration voltages selected in calc_uncertainty for sensor type
0 (load cell) or any other type reaching the else-branch shape, i.e. type 1
(ultrasonic); main.py lines 206-213. -/
def volts_for (cfg : Config) (ty : ℤ) : List ℚ :=
  if ty = 0 then cfg.load_cell.volts else cfg.ultrasonic.volts

/-- The true reference values selected in calc_uncertainty (masses × 9.8
for type 0, distances for type 1); main.py lines 208, 212. -/
def refs_for (cfg : Config) (ty : ℤ) : List ℚ :=
  if ty = 0 then cfg.load_cell.refs.map (fun m => m * (49/5)) else cfg.ultrasonic.refs

/-- The fitted polynomial selected in calc_uncertainty; main.py
lines 209, 213. -/
def fit_for (cfg : Config) (ty : ℤ) : PolyFit :=
  if ty = 0 then (calc_lines_of_best_fit cfg).1 else (calc_lines_of_best_fit cfg).2

/-- The square of the uncertainty value computed in calc_uncertainty
(main.py lines 216-224):
uncertainty = std_error * sqrt(1 + 1/n + (x_measured - x_mean)^2 / ((n-1) var)),
with std_error = sqrt(sum(residuals^2) / (n-2)).  Squaring removes the two
square roots, whose arguments are nonnegative whenever n ≥ 3, so the real
uncertainty is exactly Real.sqrt of this value. -/
def uncertainty_sq_val (x y_true : List ℚ) (f : PolyFit) (y_value : ℚ) : ℚ :=
  ((List.zipWith (fun a b => a - b) (x.map (polyEval f)) y_true).map (fun r => r ^ 2)).sum
      / ((x.length : ℚ) - 2) *
    (1 + 1 / (x.length : ℚ) +
      (invert f y_value - mean x) ^ 2 / (((x.length : ℚ) - 1) * sampleVar x))

/-- calc_uncertainty (main.py lines 200-226), modulo the final square root:
the guard accepts types 0, 1 and 3 (line 201); only types 0 and 1 bind
x, y_true and f (lines 206-213), so type 3 reaches line 216 with f unbound
and raises UnboundLocalError.  Requires the selected calibration table to be
nonempty and length-matched for the embedding to be faithful (numpy raises
on empty or broadcast-mismatched inputs inside fit / the residual
subtraction; see the claim theorems for these hypotheses). -/
def calc_uncertainty_sq (cfg : Config) (ty : ℤ) (y_value : ℚ) : Except PyErr ℚ :=
  if ¬(ty = 0 ∨ ty = 1 ∨ ty = 3) then .error .valueError
  else if ty = 3 then .error .unboundLocal
  else .ok (uncertainty_sq_val (volts_for cfg ty) (refs_for cfg ty) (fit_for cfg ty) y_value)

/-- The real-valued uncertainty of calc_uncertainty: the square root of the
exact squared value. -/
noncomputable def calc_uncertaintyR (cfg : Config) (ty : ℤ) (y_value : ℚ) :
    Except PyErr ℝ :=
  (calc_uncertainty_sq cfg ty y_value).map (fun q => Real.sqrt (q : ℝ))

/-!
## Smoothing (main.py lines 98-104)

moving_average builds kernel = np.ones(window_size)/window_size and returns
np.convolve(data, kernel, mode='same').  Full convolution has length
n + w - 1 with full[k] = Σ_j data[j]·kernel[k-j]; mode 'same' keeps the
middle n entries starting at offset (w-1)/2 (integer division), which is
numpy's centering for data at least as long as the kernel (guaranteed by the
guard).  Out-of-range data positions contribute zero: zero padding.
-/

/-- Full convolution of data with the uniform kernel ones(w)/w. -/
def convFull (data : List ℚ) (w : ℕ) : List ℚ :=
  (List.range (data.length + w - 1)).map (fun k =>
    ∑ j ∈ Finset.range data.length,
      if j ≤ k ∧ k < j + w then data.getD j 0 * (1 / (w : ℚ)) else 0)

/-- moving_average (main.py lines 98-104): validate the window (both bad
cases raise ValueError, the first check being window_size > len(data)),
then convolve with the uniform kernel in mode 'same'. -/
def moving_average (data : List ℚ) (window_size : ℤ) : Except PyErr (List ℚ) :=
  if (data.length : ℤ) < window_size then .error .valueError
  else if window_size ≤ 0 then .error .valueError
  else .ok (((convFull data window_size.toNat).drop ((window_size.toNat - 1) / 2)).take
      data.length)

/-!
## Velocity (main.py lines 284-307)

calculate_velocity fills np.zeros_like(x), writes the five-point formula at
interior indices 2 ≤ i < n-2, then overwrites, in program order,
velocity[0], velocity[1], velocity[-1] and velocity[-2] with two-point
differences.  Assignments later in the program win when indices coincide
(for n = 3 the index 1 is written twice and keeps the backward value).
Note dt1 - dt2 = t[i+1] - t[i-1] and dt3 - dt4 = t[i+2] - t[i-2], which the
embedding keeps in the code's dt form.  With Python indexing, the negative
indices -1, -2, -3 address the time list from its own end (length m).
The function raises IndexError exactly when one of the fixed reads is out
of range: x[1], x[2] need n ≥ 3, t[2] and t[-3] need m ≥ 3, and the
interior loop (nonempty only for n ≥ 5) reads t[i+2] up to t[n-1], needing
m ≥ n; otherwise it returns a list of length n. -/
def calculate_velocity (x t : List ℚ) : Option (List ℚ) :=
  let n := x.length
  let m := t.length
  if 3 ≤ n ∧ 3 ≤ m ∧ (5 ≤ n → n ≤ m) then
    some ((List.range n).map (fun i =>
      if i = n - 2 then
        (x.getD (n-2) 0 - x.getD (n-3) 0) / (t.getD (m-2) 0 - t.getD (m-3) 0)
      else if i = n - 1 then
        (x.getD (n-1) 0 - x.getD (n-2) 0) / (t.getD (m-1) 0 - t.getD (m-2) 0)
      else if i = 1 then
        (x.getD 2 0 - x.getD 1 0) / (t.getD 2 0 - t.getD 1 0)
      else if i = 0 then
        (x.getD 1 0 - x.getD 0 0) / (t.getD 1 0 - t.getD 0 0)
      else if 2 ≤ i ∧ i + 2 < n then
        2 * (x.getD (i+1) 0 - x.getD (i-1) 0) /
            ((t.getD (i+1) 0 - t.getD i 0) - (t.getD (i-1) 0 - t.getD i 0)) +
          (x.getD (i-2) 0 - x.getD (i+2) 0) /
            (12 * ((t.getD (i+2) 0 - t.getD i 0) - (t.getD (i-2) 0 - t.getD i 0)))
      else 0))
  else none

/-!
## Event extraction (main.py lines 309-329)
-/

/-- The summary scalars returned by process_data. -/
structure TestSummary where
  max_force : ℚ
  displacement_at_break : ℚ
  velocity_at_break : ℚ
  average_velocity : ℚ
deriving DecidableEq, Repr

/-- np.where(load_cell_data > threshold)[0][0] with the threshold of
main.py line 312: the first index with a 5% rise over the initial force,
none when no index qualifies (indexing [0] into the empty match raises
IndexError). -/
def testStartIdx (force : List ℚ) : Option ℕ :=
  force.findIdx? (fun v =>
    decide (force.headD 0 + (1/20) * (listMax force - force.headD 0) < v))

/-- process_data (main.py lines 309-329).  The time argument is accepted
and unused, as in the source.  Reads of displacement and velocity at the
break index use getD (the callers pass index-aligned series; numpy would
raise on shorter ones).  The empty velocity slice start ≥ break produces
np.mean of an empty array: NaN with a warning in numpy, 0 under the ℚ
convention — either way a summary is still returned. -/
def process_data (cfg : Config) (load_cell_data ultrasonic_data velocity time :
    List ℚ) : Except PyErr TestSummary :=
  match testStartIdx load_cell_data with
  | none => .error .indexError
  | some test_start_index =>
    let sample_break_index := argmax load_cell_data
    let max_force := listMax load_cell_data
    let displacement_at_break := ultrasonic_data.getD sample_break_index 0
    match calc_uncertainty_sq cfg 1 displacement_at_break with
    | .error e => .error e
    | .ok _ =>
      let velocity_at_break := velocity.getD sample_break_index 0
      let average_velocity := mean ((velocity.take sample_break_index).drop test_start_index)
      .ok ⟨max_force, displacement_at_break, velocity_at_break, average_velocity⟩

/-- A well-formed sample configuration used to instantiate hypotheses of the
claim theorems on concrete inputs: the load-cell table is the synthetic
example of the specification (masses 0, 0.1, 0.2 kg against voltages 2.0,
2.1, 2.2 V); the ultrasonic table is the synthetic linear table with
distances 0, 1, 2 m at voltages 0, 1, 2 V. -/
def cfg0 : Config :=
  { load_cell := ⟨[0, 1/10, 1/5], [2, 21/10, 11/5]⟩
    ultrasonic := ⟨[0, 1, 2], [0, 1, 2]⟩ }

/-- A degenerate configuration whose load-cell reference values are all
equal, so the fitted load-cell slope is zero. -/
def cfgDeg : Config :=
  { load_cell := ⟨[0, 0, 0], [0, 1, 2]⟩
    ultrasonic := ⟨[0, 1, 2], [0, 1, 2]⟩ }

/-!
## Claim theorems
-/

/-- C1: the spec claims invert(model, predict(model, v)) ≈ v for every valid
calibration table.  On the code this fails: Polynomial.fit stores window
coefficients, so the inverse lookup of line 216 recovers the scaled window
coordinate of v, not v.  On the exact linear ultrasonic table with voltages
0, 1, 2 the fit is exact, predict(0) = 0, yet inverting that prediction
yields -1 (the window image of voltage 0), far beyond any floating-point
tolerance. -/
theorem claim_C1_roundtrip_fails :
    polyEval (calc_lines_of_best_fit cfg0).2 0 = 0 ∧
    invert (calc_lines_of_best_fit cfg0).2 (polyEval (calc_lines_of_best_fit cfg0).2 0) = -1 := by
  constructor <;>
    norm_num [invert, polyEval, calc_lines_of_best_fit, polyfit, cfg0, mapToWindow,
      listMin, listMax]

/-- C2: the spec claims that on displacement v0 + a·t over a uniform grid the
interior five-point estimate returns ≈ a.  Evaluating the code on
displacement equal to time (v0 = 0, a = 1, uniform unit steps, 5 samples)
gives 23/12 at the single interior index 2 instead of 1: the stencil
written at lines 296-297 is not a consistent derivative formula (its value
on affine data is 23a/12). -/
theorem claim_C2_stencil_wrong :
    calculate_velocity [0, 1, 2, 3, 4] [0, 1, 2, 3, 4] = some [1, 1, 23/12, 1, 1] ∧
    (23/12 : ℚ) ≠ 1 := by
  constructor
  · norm_num [calculate_velocity, List.range_succ]
  · norm_num

/-- C5 counterexample: with all load-cell reference masses equal the fitted
slope is zero, yet calc_uncertainty returns normally — the division of
line 216 is numpy float division (inf/NaN, warning only), and no
DegenerateModelError or any zero-slope check exists in the code. -/
theorem claim_C5_cex :
    (fit_for cfgDeg 0).coef1 = 0 ∧ (calc_uncertainty_sq cfgDeg 0 5).isOk = true := by
  constructor
  · norm_num [fit_for, calc_lines_of_best_fit, polyfit, cfgDeg, mapToWindow, listMin, listMax]
  · norm_num [calc_uncertainty_sq, Except.isOk, Except.toBool]

/-- C5 amended: for sensor types 0 and 1 with a nonempty, length-matched
calibration table (the regime in which the numpy pipeline raises no
exception), calc_uncertainty always returns a value — in particular it
never raises on a zero-slope fit.  The table hypotheses delimit the
fidelity of the embedding (numpy raises on empty or length-mismatched
tables inside Polynomial.fit / the residual broadcast); they are not needed
by the model itself. -/
theorem claim_C5_amended (cfg : Config) (ty : ℤ) (y : ℚ) (hty : ty = 0 ∨ ty = 1)
    (hlen : (volts_for cfg ty).length = (refs_for cfg ty).length)
    (hpos : 0 < (volts_for cfg ty).length) :
    (calc_uncertainty_sq cfg ty y).isOk = true := by
  rcases hty with rfl | rfl <;> norm_num [calc_uncertainty_sq, Except.isOk, Except.toBool]

/-- C5 witness: the amended theorem applied to the degenerate zero-slope
configuration. -/
theorem claim_C5_witness :
    ((volts_for cfgDeg 0).length = (refs_for cfgDeg 0).length ∧
      0 < (volts_for cfgDeg 0).length) ∧
    (calc_uncertainty_sq cfgDeg 0 5).isOk = true :=
  ⟨⟨by decide, by decide⟩,
   claim_C5_amended cfgDeg 0 5 (Or.inl rfl) (by decide) (by decide)⟩

/-- C6: moving_average raises ValueError exactly outside 0 < windowSize ≤
len(data) (checks at lines 99-100, window-too-large first), and for every
window in range returns a list of the input's length. -/
theorem claim_C6_window_validation (data : List ℚ) (w : ℤ) :
    ((w ≤ 0 ∨ (data.length : ℤ) < w) → moving_average data w = .error .valueError) ∧
    (0 < w → w ≤ (data.length : ℤ) →
      ∃ l, moving_average data w = .ok l ∧ l.length = data.length) := by
  unfold moving_average
  constructor
  · intro h
    split_ifs with h1 h2
    · rfl
    · rfl
    · exfalso; omega
  · intro hw hwn
    split_ifs with h1 h2
    · exfalso; omega
    · exfalso; omega
    · refine ⟨_, rfl, ?_⟩
      simp only [convFull, List.length_take, List.length_drop, List.length_map,
        List.length_range]
      have h3 : (w.toNat - 1) / 2 ≤ w.toNat - 1 := Nat.div_le_self _ _
      omega

/-- C6 witness: window 0 is rejected on [1, 2, 3]; window 2 succeeds with
output length 3. -/
theorem claim_C6_witness :
    moving_average [(1:ℚ), 2, 3] 0 = .error .valueError ∧
    ∃ l, moving_average [(1:ℚ), 2, 3] 2 = .ok l ∧ l.length = [(1:ℚ), 2, 3].length :=
  ⟨(claim_C6_window_validation [1, 2, 3] 0).1 (Or.inl (by decide)),
   (claim_C6_window_validation [1, 2, 3] 2).2 (by decide) (by decide)⟩

/-- C7 counterexample: a 4-sample input (fewer than 5) does not fail —
calculate_velocity returns a full-length result built from the two-point
boundary formulas; no sample-count check exists in the code. -/
theorem claim_C7_cex :
    calculate_velocity [0, 1, 2, 3] [0, 1, 2, 3] = some [1, 1, 1, 1] := by
  norm_num [calculate_velocity, List.range_succ]

/-- C7 amended: with an index-aligned time base, calculate_velocity fails
(IndexError from the fixed boundary reads) only for fewer than 3 samples;
for 3 or 4 samples (where the claimed five-point interior is empty) it
succeeds and returns a list of the input's length. -/
theorem claim_C7_amended (x t : List ℚ) (hlen : x.length = t.length) :
    (x.length < 3 → calculate_velocity x t = none) ∧
    (3 ≤ x.length → x.length < 5 →
      ∃ l, calculate_velocity x t = some l ∧ l.length = x.length) := by
  constructor
  · intro h
    simp only [calculate_velocity]
    rw [if_neg]
    rintro ⟨h3, -, -⟩
    omega
  · intro h3 h5
    simp only [calculate_velocity]
    rw [if_pos ⟨h3, by omega, by omega⟩]
    exact ⟨_, rfl, by simp⟩

/-- C7 witness: two samples fail, three samples succeed with output
length 3. -/
theorem claim_C7_witness :
    calculate_velocity [(0:ℚ), 1] [0, 1] = none ∧
    ∃ l, calculate_velocity [(0:ℚ), 1, 2] [0, 1, 2] = some l ∧
      l.length = [(0:ℚ), 1, 2].length :=
  ⟨(claim_C7_amended [0, 1] [0, 1] rfl).1 (by decide),
   (claim_C7_amended [0, 1, 2] [0, 1, 2] rfl).2 (by decide) (by decide)⟩

/-- C10: the sensor-type guard of line 201 accepts exactly 0, 1 and 3; type
3 passes the guard and then fails at line 216 with UnboundLocalError (no
branch assigned f), any type outside the set raises ValueError, and a value
is only ever produced for types 0 and 1. -/
theorem claim_C10_type_guard (cfg : Config) (ty : ℤ) (y : ℚ) :
    (ty = 3 → calc_uncertainty_sq cfg ty y = .error .unboundLocal) ∧
    (¬(ty = 0 ∨ ty = 1 ∨ ty = 3) → calc_uncertainty_sq cfg ty y = .error .valueError) ∧
    ((calc_uncertainty_sq cfg ty y).isOk = true → ty = 0 ∨ ty = 1) := by
  unfold calc_uncertainty_sq
  by_cases h1 : ty = 0 ∨ ty = 1 ∨ ty = 3
  · rw [if_neg (not_not_intro h1)]
    by_cases h2 : ty = 3
    · rw [if_pos h2]
      exact ⟨fun _ => rfl, fun hcon => absurd h1 hcon,
        fun h => by simp [Except.isOk, Except.toBool] at h⟩
    · rw [if_neg h2]
      refine ⟨fun h3 => absurd h3 h2, fun hcon => absurd h1 hcon, fun _ => ?_⟩
      rcases h1 with h | h | h
      · exact Or.inl h
      · exact Or.inr h
      · exact absurd h h2
  · rw [if_pos h1]
    exact ⟨fun h3 => absurd (Or.inr (Or.inr h3)) h1, fun _ => rfl,
      fun h => by simp [Except.isOk, Except.toBool] at h⟩

/-- C10 witness: type 3 yields UnboundLocalError, type 7 yields ValueError,
and an ok result at type 1 certifies membership in the producing set. -/
theorem claim_C10_witness :
    calc_uncertainty_sq cfg0 3 1 = .error .unboundLocal ∧
    calc_uncertainty_sq cfg0 7 1 = .error .valueError ∧
    ((1 : ℤ) = 0 ∨ (1 : ℤ) = 1) :=
  ⟨(claim_C10_type_guard cfg0 3 1).1 rfl,
   (claim_C10_type_guard cfg0 7 1).2.1 (by decide),
   (claim_C10_type_guard cfg0 1 1).2.2
     (by norm_num [calc_uncertainty_sq, Except.isOk, Except.toBool])⟩

/-- C8: whenever no index of the force signal exceeds
force[0] + 0.05·(max(force) − force[0]) — in particular for a constant
force — the fancy-index [0][0] of line 313 hits an empty match and
process_data fails with IndexError (the spec's NoEventFoundError), never
returning a summary. -/
theorem claim_C8_no_event_error (cfg : Config) (force disp vel time : List ℚ)
    (h : ∀ i < force.length,
      force.getD i 0 ≤ force.headD 0 + (1/20) * (listMax force - force.headD 0)) :
    process_data cfg force disp vel time = .error .indexError := by
  have hnone : testStartIdx force = none := by
    rw [testStartIdx, List.findIdx?_eq_none_iff]
    intro x hx
    obtain ⟨i, hi, rfl⟩ := List.mem_iff_getElem.mp hx
    simp only [decide_eq_false_iff_not, not_lt]
    have h2 := h i hi
    rwa [List.getD_eq_getElem?_getD, List.getElem?_eq_getElem hi, Option.getD_some] at h2
  simp only [process_data, hnone]

/-- C8 witness: the constant force trace 5, 5, 5 never rises above its own
threshold and the extraction fails. -/
theorem claim_C8_witness :
    (∀ i < ([5, 5, 5] : List ℚ).length,
      ([5, 5, 5] : List ℚ).getD i 0 ≤ ([5, 5, 5] : List ℚ).headD 0 +
        (1/20) * (listMax [5, 5, 5] - ([5, 5, 5] : List ℚ).headD 0)) ∧
    process_data cfg0 [5, 5, 5] [0, 0, 0] [0, 0, 0] [0, 1, 2] = .error .indexError := by
  have h : ∀ i < ([5, 5, 5] : List ℚ).length,
      ([5, 5, 5] : List ℚ).getD i 0 ≤ ([5, 5, 5] : List ℚ).headD 0 +
        (1/20) * (listMax [5, 5, 5] - ([5, 5, 5] : List ℚ).headD 0) := by
    intro i hi
    have hi3 : i < 3 := by simpa using hi
    interval_cases i <;> norm_num [listMax]
  exact ⟨h, claim_C8_no_event_error cfg0 [5, 5, 5] [0, 0, 0] [0, 0, 0] [0, 1, 2] h⟩

/-- C9 counterexample: on the force trace 0, 10 the start index and the
break index are both 1, so the velocity slice velocity[1:1] is empty — yet
process_data returns a summary (numpy: NaN average with a warning, no
exception): the claimed empty-range guard does not exist. -/
theorem claim_C9_cex :
    testStartIdx [0, 10] = some 1 ∧ argmax ([0, 10] : List ℚ) = 1 ∧
    (process_data cfg0 [0, 10] [0, 0] [1, 2] [0, 1]).isOk = true := by
  refine ⟨?_, ?_, ?_⟩
  · norm_num [testStartIdx, listMax, List.findIdx?]
  · norm_num [argmax, listMax, List.range_succ, List.find?]
  · norm_num [process_data, testStartIdx, List.findIdx?, listMax, argmax, List.range_succ,
      calc_uncertainty_sq, Except.isOk, Except.toBool]

/-- C9 amended: whenever a start index exists, process_data returns a
summary whose average velocity is the mean of velocity[startIndex:breakIndex]
— including the empty slice startIndex ≥ breakIndex, where numpy yields NaN
(the ℚ embedding's 0/0 = 0) instead of the claimed NoEventFoundError. -/
theorem claim_C9_amended (cfg : Config) (force disp vel time : List ℚ) (s : ℕ)
    (h : testStartIdx force = some s) :
    ∃ sm, process_data cfg force disp vel time = .ok sm ∧
      sm.average_velocity = mean ((vel.take (argmax force)).drop s) := by
  simp only [process_data, h]
  have hok : calc_uncertainty_sq cfg 1 (disp.getD (argmax force) 0) =
      .ok (uncertainty_sq_val (volts_for cfg 1) (refs_for cfg 1) (fit_for cfg 1)
        (disp.getD (argmax force) 0)) := by
    norm_num [calc_uncertainty_sq]
  rw [hok]
  exact ⟨_, rfl, rfl⟩

/-- C9 witness: the amended theorem applied to the rising force trace 0, 10
with its empty velocity slice. -/
theorem claim_C9_witness :
    testStartIdx [0, 10] = some 1 ∧
    ∃ sm, process_data cfg0 [0, 10] [0, 0] [1, 2] [0, 1] = .ok sm ∧
      sm.average_velocity = mean ((([1, 2] : List ℚ).take (argmax [0, 10])).drop 1) := by
  have h : testStartIdx [0, 10] = some 1 := by
    norm_num [testStartIdx, listMax, List.findIdx?]
  exact ⟨h, claim_C9_amended cfg0 [0, 10] [0, 0] [1, 2] [0, 1] 1 h⟩

/-- A sum of squares is nonnegative. -/
theorem sum_sq_nonneg (l : List ℚ) : 0 ≤ (l.map (fun r => r ^ 2)).sum := by
  apply List.sum_nonneg
  intro x hx
  obtain ⟨r, -, rfl⟩ := List.mem_map.mp hx
  positivity

/-- Monotonicity of the squared uncertainty in the distance of the recovered
coordinate from the mean calibration voltage, for any fixed table with at
least 3 points and positive sample variance. -/
theorem uncertainty_sq_val_mono (x y_true : List ℚ) (f : PolyFit) (y₁ y₂ : ℚ)
    (hn : 3 ≤ x.length) (hvar : 0 < sampleVar x)
    (hd : |invert f y₂ - mean x| ≤ |invert f y₁ - mean x|) :
    uncertainty_sq_val x y_true f y₂ ≤ uncertainty_sq_val x y_true f y₁ := by
  unfold uncertainty_sq_val
  have hn3 : (3 : ℚ) ≤ (x.length : ℚ) := by exact_mod_cast hn
  have hS : 0 ≤ ((List.zipWith (fun a b => a - b) (x.map (polyEval f)) y_true).map
      (fun r => r ^ 2)).sum / ((x.length : ℚ) - 2) := by
    apply div_nonneg (sum_sq_nonneg _)
    linarith
  have hden : 0 < ((x.length : ℚ) - 1) * sampleVar x := by
    apply mul_pos _ hvar
    linarith
  have hd2 : (invert f y₂ - mean x) ^ 2 ≤ (invert f y₁ - mean x) ^ 2 := by
    rw [← sq_abs (invert f y₂ - mean x), ← sq_abs (invert f y₁ - mean x)]
    exact pow_le_pow_left₀ (abs_nonneg _) hd 2
  apply mul_le_mul_of_nonneg_left _ hS
  apply add_le_add_left
  exact (div_le_div_iff_of_pos_right hden).mpr hd2

/-- C4: for either sensor type, a fixed configuration with at least 3
calibration points and positive voltage variance, the real uncertainty is
monotonically non-decreasing in the distance of the recovered coordinate
from the mean calibration voltage: if the recovery for y₂ is at most as far
from the mean as the recovery for y₁, then estimate(y₂) ≤ estimate(y₁). -/
theorem claim_C4_uncertainty_monotone (cfg : Config) (ty : ℤ) (y₁ y₂ : ℚ)
    (hty : ty = 0 ∨ ty = 1)
    (hn : 3 ≤ (volts_for cfg ty).length)
    (hvar : 0 < sampleVar (volts_for cfg ty))
    (hd : |invert (fit_for cfg ty) y₂ - mean (volts_for cfg ty)| ≤
      |invert (fit_for cfg ty) y₁ - mean (volts_for cfg ty)|) :
    ∃ u₁ u₂ : ℝ, calc_uncertaintyR cfg ty y₁ = .ok u₁ ∧
      calc_uncertaintyR cfg ty y₂ = .ok u₂ ∧ u₂ ≤ u₁ := by
  have hok : ∀ z : ℚ, calc_uncertainty_sq cfg ty z =
      .ok (uncertainty_sq_val (volts_for cfg ty) (refs_for cfg ty) (fit_for cfg ty) z) := by
    intro z
    rcases hty with rfl | rfl <;> norm_num [calc_uncertainty_sq]
  refine ⟨Real.sqrt ((uncertainty_sq_val (volts_for cfg ty) (refs_for cfg ty)
      (fit_for cfg ty) y₁ : ℚ) : ℝ),
    Real.sqrt ((uncertainty_sq_val (volts_for cfg ty) (refs_for cfg ty)
      (fit_for cfg ty) y₂ : ℚ) : ℝ), ?_, ?_, ?_⟩
  · unfold calc_uncertaintyR
    rw [hok y₁]
    rfl
  · unfold calc_uncertaintyR
    rw [hok y₂]
    rfl
  · apply Real.sqrt_le_sqrt
    exact_mod_cast uncertainty_sq_val_mono (volts_for cfg ty) (refs_for cfg ty)
      (fit_for cfg ty) y₁ y₂ hn hvar hd

/-- C4 witness: on the synthetic ultrasonic table with voltages 0, 1, 2,
the recovery for predicted value 4 sits 2 away from the mean coordinate and
the recovery for 10 sits 8 away, so the estimate at 10 dominates. -/
theorem claim_C4_witness :
    (3 ≤ (volts_for cfg0 1).length ∧ 0 < sampleVar (volts_for cfg0 1) ∧
      |invert (fit_for cfg0 1) 4 - mean (volts_for cfg0 1)| ≤
        |invert (fit_for cfg0 1) 10 - mean (volts_for cfg0 1)|) ∧
    ∃ u₁ u₂ : ℝ, calc_uncertaintyR cfg0 1 10 = .ok u₁ ∧
      calc_uncertaintyR cfg0 1 4 = .ok u₂ ∧ u₂ ≤ u₁ := by
  have hn : 3 ≤ (volts_for cfg0 1).length := by decide
  have hvar : 0 < sampleVar (volts_for cfg0 1) := by
    norm_num [sampleVar, mean, volts_for, cfg0]
  have hd : |invert (fit_for cfg0 1) 4 - mean (volts_for cfg0 1)| ≤
      |invert (fit_for cfg0 1) 10 - mean (volts_for cfg0 1)| := by
    norm_num [invert, fit_for, calc_lines_of_best_fit, polyfit, cfg0, mapToWindow,
      listMin, listMax, mean, volts_for]
  exact ⟨⟨hn, hvar, hd⟩, claim_C4_uncertainty_monotone cfg0 1 10 4 (Or.inr rfl) hn hvar hd⟩

/-- Sum of a contiguous sublist written with take and drop, as a guarded sum
over all positions. -/
theorem sum_drop_take (l : List ℚ) (a b : ℕ) :
    ((l.take b).drop a).sum =
      ∑ j ∈ Finset.range l.length, if a ≤ j ∧ j < b then l.getD j 0 else 0 := by
  induction l generalizing a b with
  | nil => simp
  | cons hd tl ih =>
    cases b with
    | zero => simp
    | succ b =>
      cases a with
      | zero =>
        simp only [List.take_succ_cons, List.drop_zero, List.sum_cons, List.length_cons]
        rw [Finset.sum_range_succ']
        simp only [List.getD_cons_succ, List.getD_cons_zero, Nat.zero_le, true_and,
          Nat.succ_lt_succ_iff, Nat.zero_lt_succ, if_true]
        have h0 := ih 0 b
        simp only [List.drop_zero, Nat.zero_le, true_and] at h0
        rw [← h0]
        ring
      | succ a =>
        simp only [List.take_succ_cons, List.drop_succ_cons, List.length_cons]
        rw [Finset.sum_range_succ']
        simp only [List.getD_cons_succ, List.getD_cons_zero, Nat.succ_le_succ_iff,
          Nat.succ_lt_succ_iff]
        rw [ih a b]
        simp

/-- C3 counterexample: convolution in mode same zero-pads: on the constant
input 1, 1, 1 with window 3 the output is 2/3, 1, 2/3, so the first and
last values do not equal the constant — the edges are pulled toward zero,
contradicting the claimed truncated-window mean. -/
theorem claim_C3_cex :
    moving_average [1, 1, 1] 3 = .ok [2/3, 1, 2/3] ∧ ((2 : ℚ)/3 ≠ 1) := by
  constructor
  · norm_num [moving_average, convFull, List.range_succ, Finset.sum_range_succ,
      show (3:ℤ).toNat = 3 from rfl]
  · norm_num

/-- C3 amended: for every valid window, output i of moving_average is the
sum of the data over the in-range part of the as-centered window of width w
around i, divided by the full window size w — numpy zero padding — rather
than an unweighted mean over the truncated window (which would divide by
the number of in-range terms). -/
theorem claim_C3_zero_padding (data : List ℚ) (w : ℤ) (l : List ℚ) (i : ℕ)
    (hw : 0 < w) (hwn : w ≤ (data.length : ℤ))
    (hres : moving_average data w = .ok l) (hi : i < data.length) :
    l.getD i 0 =
      ((data.take (i + (w.toNat - 1) / 2 + 1)).drop
          (i + (w.toNat - 1) / 2 + 1 - w.toNat)).sum / (w.toNat : ℚ) := by
  have hW1 : 1 ≤ w.toNat := by omega
  have hWn : w.toNat ≤ data.length := by omega
  unfold moving_average at hres
  rw [if_neg (by omega), if_neg (by omega)] at hres
  have hl : ((convFull data w.toNat).drop ((w.toNat - 1) / 2)).take data.length = l :=
    Except.ok.inj hres
  subst hl
  set s := (w.toNat - 1) / 2 with hs
  have hsw : s ≤ w.toNat - 1 := Nat.div_le_self _ _
  have hlt : s + i < data.length + w.toNat - 1 := by omega
  have hkey : (((convFull data w.toNat).drop s).take data.length).getD i 0 =
      ∑ j ∈ Finset.range data.length,
        if j ≤ s + i ∧ s + i < j + w.toNat then data.getD j 0 * (1 / (w.toNat : ℚ))
        else 0 := by
    rw [List.getD_eq_getElem?_getD, List.getElem?_take, if_pos hi, List.getElem?_drop]
    unfold convFull
    rw [List.getElem?_map, List.getElem?_range hlt]
    rfl
  rw [hkey, sum_drop_take data (i + s + 1 - w.toNat) (i + s + 1), Finset.sum_div]
  apply Finset.sum_congr rfl
  intro j hj
  by_cases hc : j ≤ s + i ∧ s + i < j + w.toNat
  · rw [if_pos hc, if_pos (by omega : i + s + 1 - w.toNat ≤ j ∧ j < i + s + 1), mul_one_div]
  · rw [if_neg hc, if_neg (by omega : ¬(i + s + 1 - w.toNat ≤ j ∧ j < i + s + 1)), zero_div]

/-- C3 witness: the zero-padding formula instantiated at the first output of
the constant example — one in-range term, divided by the full window 3. -/
theorem claim_C3_witness :
    moving_average [1, 1, 1] 3 = .ok [2/3, 1, 2/3] ∧
    ([2/3, 1, 2/3] : List ℚ).getD 0 0 =
      ((([1, 1, 1] : List ℚ).take (0 + ((3:ℤ).toNat - 1) / 2 + 1)).drop
          (0 + ((3:ℤ).toNat - 1) / 2 + 1 - (3:ℤ).toNat)).sum / (((3:ℤ).toNat : ℕ) : ℚ) := by
  have hres : moving_average [1, 1, 1] 3 = .ok [2/3, 1, 2/3] := by
    norm_num [moving_average, convFull, List.range_succ, Finset.sum_range_succ,
      show (3:ℤ).toNat = 3 from rfl]
  exact ⟨hres, claim_C3_zero_padding [1, 1, 1] 3 [2/3, 1, 2/3] 0 (by decide) (by decide)
    hres (by decide)⟩

end TensileTester
